import Mathlib

/-!
Verification of `examples/sam3u_benchmark.c` (libusb benchmark example).

The C program is embedded shallowly:
* `measure_diff_msec` mirrors the arithmetic of `measure()` (lines 161-179),
  with `timeval` fields as mathematical integers (no unsigned wrap occurs for
  the in-scope inputs, where the stop timestamp is not earlier than the start).
* `cb_xfr` mirrors the completion callback (lines 77-117): the transfer's
  status/type/packet data is a `Transfer` value, the global counters are a
  `Counters` value threaded explicitly, and the result of the
  `libusb_submit_transfer` re-submission call is an input `Int`
  (negative = failure), since the library is external.
* `mainTrace` mirrors `main` (lines 189-238) as a function from an
  environment (the results the external libusb library returns) to the list
  of library-call steps performed, in order, together with the process exit
  code.  SIGINT delivery is discretised: the signal is modelled as arriving
  at the `while (!do_exit)` condition check after the supplied
  `libusb_handle_events` results are consumed, at which point the handler
  `sig_hdlr` runs `measure()` and sets `do_exit` (lines 181-187, 224-228).
-/

namespace Sam3u

/-- The `NSEC_PER_SEC` macro from line 39 of the source. -/
def NSEC_PER_SEC : Int := 1000000000

/-- The `EP_DATA_IN` macro (line 42). -/
def EP_DATA_IN : Nat := 0x82

/-- The `EP_ISO_IN` macro (line 43). -/
def EP_ISO_IN : Nat := 0x86

/-- A `struct timeval`: seconds and microseconds, as mathematical integers. -/
structure Timeval where
  tv_sec : Int
  tv_usec : Int
deriving DecidableEq, Repr

/-- The `diff_msec` computation of `measure()` (lines 166-175), verbatim:
the difference of the two timestamps is taken field by field, and when the
microsecond difference is negative the code adds `NSEC_PER_SEC` to it while
borrowing one second.  All in-scope values are nonnegative after the borrow,
so `Int` arithmetic is faithful to the C unsigned arithmetic. -/
def measure_diff_msec (tv_start tv_stop : Timeval) : Int :=
  let diff_sec := tv_stop.tv_sec - tv_start.tv_sec
  let diff_usec := tv_stop.tv_usec - tv_start.tv_usec
  let borrowed :=
    if diff_usec < 0 then (diff_sec - 1, diff_usec + NSEC_PER_SEC)
    else (diff_sec, diff_usec)
  borrowed.1 * 1000 + borrowed.2 / 1000

/-- The throughput printed by `measure()` (line 178): `(num_bytes * 1000L) / diff_msec`. -/
def measure_throughput (num_bytes diff_msec : Nat) : Nat :=
  num_bytes * 1000 / diff_msec

/-- The true elapsed time in milliseconds between two timestamps, written
from the claim's words (the spec-side definition, for comparison with
`measure_diff_msec`): the elapsed microseconds, divided by 1000. -/
def trueElapsedMsec (tv_start tv_stop : Timeval) : Int :=
  ((tv_stop.tv_sec - tv_start.tv_sec) * 1000000
    + (tv_stop.tv_usec - tv_start.tv_usec)) / 1000

/-- Values of `enum libusb_transfer_status` relevant to the example; the
code only ever compares against `LIBUSB_TRANSFER_COMPLETED`. -/
inductive TransferStatus
  | completed
  | error
  | timedOut
  | cancelled
  | stall
  | noDevice
  | overflow
deriving DecidableEq, Repr

/-- Values of `enum libusb_transfer_type`. -/
inductive TransferType
  | control
  | isochronous
  | bulk
  | interrupt
deriving DecidableEq, Repr

/-- A `struct libusb_iso_packet_descriptor`: length, actual_length, status. -/
structure IsoPacketDesc where
  length : Nat
  actual_length : Nat
  status : TransferStatus
deriving DecidableEq, Repr

/-- The fields of `struct libusb_transfer` the callback reads.  The C field
`num_iso_packets` is the length of `iso_packet_desc`. -/
structure Transfer where
  xferType : TransferType
  status : TransferStatus
  length : Nat
  actual_length : Nat
  iso_packet_desc : List IsoPacketDesc
deriving DecidableEq, Repr

/-- The `num_iso_packets` field of a transfer. -/
def Transfer.num_iso_packets (x : Transfer) : Nat :=
  x.iso_packet_desc.length

/-- The iso-packet loop of `cb_xfr` (lines 88-97): packets are examined in
order; at the first packet whose status is not `LIBUSB_TRANSFER_COMPLETED`
the process exits with code 5 (`Except.error 5`); otherwise the
`(length, actual_length)` pair printed for each packet is collected. -/
def iso_packet_loop : List IsoPacketDesc → Except Nat (List (Nat × Nat))
  | [] => Except.ok []
  | p :: ps =>
    if p.status ≠ TransferStatus.completed then Except.error 5
    else
      match iso_packet_loop ps with
      | Except.ok printed => Except.ok ((p.length, p.actual_length) :: printed)
      | Except.error e => Except.error e

/-- Outcome of one invocation of the completion callback. -/
inductive CbResult
  | exited (code : Nat)
  | resubmitted (xfr : Transfer)
deriving DecidableEq, Repr

/-- The global counters `num_bytes` and `num_xfer` (line 48). -/
structure Counters where
  num_bytes : Nat
  num_xfer : Nat
deriving DecidableEq, Repr

/-- The completion callback `cb_xfr` (lines 77-117).  `submit_result` is the
value the external `libusb_submit_transfer` returns for the re-submission at
line 113 (negative = failure).  Returns the outcome and updated counters:
* status not COMPLETED: `exit(3)` (line 84);
* isochronous transfer with a failed packet: `exit(5)` (line 93);
* otherwise the counters are incremented by `actual_length` and 1
  (lines 110-111) and the same transfer is re-submitted; a failed
  re-submission is `exit(1)` (line 115). -/
def cb_xfr (xfr : Transfer) (c : Counters) (submit_result : Int) :
    CbResult × Counters :=
  if xfr.status ≠ TransferStatus.completed then (CbResult.exited 3, c)
  else
    match (if xfr.xferType = TransferType.isochronous
           then iso_packet_loop xfr.iso_packet_desc
           else Except.ok []) with
    | Except.error e => (CbResult.exited e, c)
    | Except.ok _ =>
      let c' : Counters := ⟨c.num_bytes + xfr.actual_length, c.num_xfer + 1⟩
      if submit_result < 0 then (CbResult.exited 1, c')
      else (CbResult.resubmitted xfr, c')

/-- A sequence of callback invocations: each list element is the completed
transfer the library hands to `cb_xfr` together with the re-submission
result.  Processing stops at the first invocation that exits the process
(returning its exit code); `none` means every invocation returned
normally (resubmitting), i.e. the loop continues until the input stream is
interrupted. -/
def cb_run (c : Counters) : List (Transfer × Int) → Counters × Option Nat
  | [] => (c, none)
  | (x, sr) :: rest =>
    match cb_xfr x c sr with
    | (CbResult.exited e, c') => (c', some e)
    | (CbResult.resubmitted _, c') => cb_run c' rest

/-- The transfer setup `benchmark_in` performs (lines 119-141): endpoint,
transfer type, buffer size, number of iso packets, and the per-packet length
set by `libusb_set_iso_packet_lengths` (line 137). -/
structure TransferSetup where
  endpoint : Nat
  xferType : TransferType
  bufLen : Nat
  numIsoPackets : Nat
  packetLen : Nat
deriving DecidableEq, Repr

/-- How `benchmark_in ep` fills the transfer it allocates (lines 123-140):
`num_iso_pack` is 16 when `ep == EP_ISO_IN`, otherwise 0; for `EP_ISO_IN`
the transfer is filled as isochronous over the 2048-byte static buffer with
`num_iso_pack` packets of length `sizeof(buf)/num_iso_pack` each, otherwise
as a bulk transfer over the same buffer. -/
def benchmark_in_setup (ep : Nat) : TransferSetup :=
  let num_iso_pack := if ep = EP_ISO_IN then 16 else 0
  if ep = EP_ISO_IN then
    ⟨ep, TransferType.isochronous, 2048, num_iso_pack, 2048 / num_iso_pack⟩
  else
    ⟨ep, TransferType.bulk, 2048, num_iso_pack, 0⟩

/-- One library-call step of the program, in the order `main` performs them.
Constructor arguments record the concrete parameters passed. -/
inductive Step
  | init
  | openDev (vid pid : Nat)
  | claimIntf (iface : Nat)
  | allocTransfer (numIsoPackets : Nat)
  | fillTransfer (setup : TransferSetup)
  | submitTransfer
  | handleEvents
  | doMeasure
  | releaseIntf (iface : Nat)
  | closeDev
  | exitLib
deriving DecidableEq, Repr

/-- The steps `benchmark_in ep` performs (lines 119-159): it allocates a
transfer with `num_iso_pack` iso packets; on allocation failure it returns
-1 at once (no fill, no submit); otherwise it fills the transfer and
submits it.  `main` discards `benchmark_in`'s return value (line 222). -/
def benchmark_in_steps (ep : Nat) (allocOk : Bool) : List Step :=
  let num_iso_pack := if ep = EP_ISO_IN then 16 else 0
  if allocOk then
    [Step.allocTransfer num_iso_pack,
     Step.fillTransfer (benchmark_in_setup ep),
     Step.submitTransfer]
  else
    [Step.allocTransfer num_iso_pack]

/-- The `while (!do_exit)` loop of `main` (lines 224-228).  `results` is the
sequence of values `libusb_handle_events` returns before SIGINT arrives;
SIGINT is modelled as delivered at the loop-condition check once `results`
is exhausted, whereupon `sig_hdlr` runs `measure()` and sets `do_exit`.  The
loop breaks early at the first result different from `LIBUSB_SUCCESS` (= 0).
Returns the steps performed inside the loop (including the handler's
`doMeasure`) and the final value of `rc`. -/
def eventLoop : List Int → Int → List Step × Int
  | [], rc => ([Step.doMeasure], rc)
  | r :: rs, _ =>
    if r ≠ 0 then ([Step.handleEvents], r)
    else
      let rest := eventLoop rs r
      (Step.handleEvents :: rest.1, rest.2)

/-- The results the external libusb library returns during one run of
`main`: the `libusb_init_context` result, whether
`libusb_open_device_with_vid_pid` returns a non-NULL handle, the
`libusb_claim_interface` result, whether `libusb_alloc_transfer` succeeds,
and the successive `libusb_handle_events` results before SIGINT. -/
structure Env where
  initResult : Int
  openOk : Bool
  claimResult : Int
  allocOk : Bool
  events : List Int
deriving DecidableEq, Repr

/-- The function `main` (lines 189-238) as a trace: the list of
library-call steps in the order performed, and the process exit status.
* init failure (`rc < 0`): `exit(1)` (line 207);
* open failure (NULL handle): `goto out` with `devh` NULL, so only
  `libusb_exit` runs, and `main` returns the `rc` left from init
  (lines 211-214, 233-237);
* claim failure (`rc < 0`): `goto out` with `devh` set, so close and exit
  run and `main` returns the claim `rc` (lines 216-220);
* otherwise `benchmark_in(EP_ISO_IN)` (return value discarded), the event
  loop, then release, close, exit, returning the final `rc`. -/
def mainTrace (env : Env) : List Step × Int :=
  if env.initResult < 0 then ([Step.init], 1)
  else if !env.openOk then
    ([Step.init, Step.openDev 0x16c0 0x0763, Step.exitLib], env.initResult)
  else if env.claimResult < 0 then
    ([Step.init, Step.openDev 0x16c0 0x0763, Step.claimIntf 2,
      Step.closeDev, Step.exitLib], env.claimResult)
  else
    let loop := eventLoop env.events env.claimResult
    ([Step.init, Step.openDev 0x16c0 0x0763, Step.claimIntf 2]
       ++ benchmark_in_steps EP_ISO_IN env.allocOk
       ++ loop.1
       ++ [Step.releaseIntf 2, Step.closeDev, Step.exitLib], loop.2)

/-- Position of a step in the nine-step order of the spec (teardown split
into its three calls, which `main` performs in this order). -/
def stepRank : Step → Nat
  | Step.init => 0
  | Step.openDev _ _ => 1
  | Step.claimIntf _ => 2
  | Step.allocTransfer _ => 3
  | Step.fillTransfer _ => 4
  | Step.submitTransfer => 5
  | Step.handleEvents => 6
  | Step.doMeasure => 7
  | Step.releaseIntf _ => 8
  | Step.closeDev => 9
  | Step.exitLib => 10

/-! Helper lemmas about the event loop and the iso-packet loop. -/

lemma eventLoop_mem (rs : List Int) (rc : Int) :
    ∀ s ∈ (eventLoop rs rc).1, s = Step.handleEvents ∨ s = Step.doMeasure := by
  induction rs generalizing rc with
  | nil =>
    intro s hs
    simp [eventLoop] at hs
    simp [hs]
  | cons r rs ih =>
    intro s hs
    by_cases h : r = 0
    · subst h
      simp [eventLoop] at hs
      rcases hs with hs | hs
      · simp [hs]
      · exact ih 0 s hs
    · simp [eventLoop, h] at hs
      simp [hs]

lemma eventLoop_not_mem (rs : List Int) (rc : Int) (s : Step)
    (h1 : s ≠ Step.handleEvents) (h2 : s ≠ Step.doMeasure) :
    s ∉ (eventLoop rs rc).1 := fun hmem =>
  (eventLoop_mem rs rc s hmem).elim h1 h2

lemma eventLoop_count (rs : List Int) (rc : Int) (s : Step)
    (h1 : s ≠ Step.handleEvents) (h2 : s ≠ Step.doMeasure) :
    (eventLoop rs rc).1.count s = 0 :=
  List.count_eq_zero.2 (eventLoop_not_mem rs rc s h1 h2)

lemma eventLoop_shape (rs : List Int) (rc : Int) :
    ∃ k t, (eventLoop rs rc).1 = List.replicate k Step.handleEvents ++ t
      ∧ (t = [] ∨ t = [Step.doMeasure]) := by
  induction rs generalizing rc with
  | nil => exact ⟨0, [Step.doMeasure], by simp [eventLoop], Or.inr rfl⟩
  | cons r rs ih =>
    by_cases h : r = 0
    · subst h
      obtain ⟨k, t, h1, h2⟩ := ih 0
      exact ⟨k + 1, t, by simp [eventLoop, List.replicate_succ, h1], h2⟩
    · exact ⟨1, [], by simp [eventLoop, h], Or.inl rfl⟩

lemma eventLoop_all_zero : ∀ (rs : List Int) (rc : Int), (∀ r ∈ rs, r = 0) →
    (eventLoop rs rc).1
      = List.replicate rs.length Step.handleEvents ++ [Step.doMeasure]
  | [], _, _ => by simp [eventLoop]
  | r :: rs, rc, h => by
    have hr : r = 0 := h r (by simp)
    subst hr
    have ih := eventLoop_all_zero rs 0 (fun x hx => h x (by simp [hx]))
    simp [eventLoop, List.replicate_succ, ih]

lemma eventLoop_replicate_zero (k : Nat) :
    eventLoop (List.replicate k 0) 0
      = (List.replicate k Step.handleEvents ++ [Step.doMeasure], 0) := by
  induction k with
  | zero => simp [eventLoop]
  | succ k ih => simp [List.replicate_succ, eventLoop, ih]

lemma eventLoop_break : ∀ (zs : List Int) (r : Int) (rs : List Int) (rc : Int),
    (∀ z ∈ zs, z = 0) → r ≠ 0 →
    eventLoop (zs ++ r :: rs) rc
      = (List.replicate (zs.length + 1) Step.handleEvents, r)
  | [], r, rs, rc, _, hr => by simp [eventLoop, hr]
  | z :: zs, r, rs, rc, hz, hr => by
    have h0 : z = 0 := hz z (by simp)
    subst h0
    have ih := eventLoop_break zs r rs 0 (fun x hx => hz x (by simp [hx])) hr
    simp [eventLoop, ih, List.replicate_succ]

lemma iso_packet_loop_ok : ∀ (ps : List IsoPacketDesc),
    (∀ p ∈ ps, p.status = TransferStatus.completed) →
    iso_packet_loop ps = Except.ok (ps.map fun p => (p.length, p.actual_length))
  | [], _ => by simp [iso_packet_loop]
  | p :: ps, h => by
    have hp : p.status = TransferStatus.completed := h p (by simp)
    have ih := iso_packet_loop_ok ps (fun q hq => h q (by simp [hq]))
    simp [iso_packet_loop, hp, ih]

lemma iso_packet_loop_error : ∀ (ps : List IsoPacketDesc),
    (∃ p ∈ ps, p.status ≠ TransferStatus.completed) →
    iso_packet_loop ps = Except.error 5
  | [], h => by simp at h
  | p :: ps, h => by
    by_cases hp : p.status = TransferStatus.completed
    · have hrest : ∃ q ∈ ps, q.status ≠ TransferStatus.completed := by
        rcases h with ⟨q, hq, hqs⟩
        rcases List.mem_cons.1 hq with rfl | hq'
        · exact absurd hp hqs
        · exact ⟨q, hq', hqs⟩
      have ih := iso_packet_loop_error ps hrest
      simp [iso_packet_loop, hp, ih]
    · simp [iso_packet_loop, hp]

lemma iso_packet_loop_error_iff (ps : List IsoPacketDesc) :
    iso_packet_loop ps = Except.error 5
      ↔ ∃ p ∈ ps, p.status ≠ TransferStatus.completed := by
  constructor
  · intro h
    by_contra hall
    push_neg at hall
    rw [iso_packet_loop_ok ps hall] at h
    simp at h
  · exact iso_packet_loop_error ps

lemma sorted_le_replicate (k n : Nat) :
    List.Sorted (fun a b : Nat => a ≤ b) (List.replicate k n) := by
  induction k with
  | zero => simp
  | succ k ih =>
    rw [List.replicate_succ]
    exact List.sorted_cons.2 ⟨fun b hb => (List.eq_of_mem_replicate hb).ge, ih⟩

lemma sorted_le_append {l₁ l₂ : List Nat}
    (h₁ : List.Sorted (fun a b : Nat => a ≤ b) l₁)
    (h₂ : List.Sorted (fun a b : Nat => a ≤ b) l₂)
    (h : ∀ x ∈ l₁, ∀ y ∈ l₂, x ≤ y) :
    List.Sorted (fun a b : Nat => a ≤ b) (l₁ ++ l₂) :=
  List.pairwise_append.2 ⟨h₁, h₂, h⟩

lemma eventLoop_ranks_sorted (rs : List Int) (rc : Int) :
    List.Sorted (fun a b : Nat => a ≤ b) (((eventLoop rs rc).1).map stepRank) := by
  obtain ⟨k, t, hshape, ht⟩ := eventLoop_shape rs rc
  rw [hshape, List.map_append, List.map_replicate]
  rcases ht with rfl | rfl
  · simpa using sorted_le_replicate k (stepRank Step.handleEvents)
  · refine sorted_le_append (sorted_le_replicate k _) (by simp) ?_
    intro x hx y hy
    rw [List.eq_of_mem_replicate hx]
    simp [stepRank] at hy
    simp [hy, stepRank]

lemma eventLoop_ranks_bounds (rs : List Int) (rc : Int) :
    ∀ x ∈ ((eventLoop rs rc).1).map stepRank, 6 ≤ x ∧ x ≤ 7 := by
  intro x hx
  rcases List.mem_map.1 hx with ⟨s, hs, rfl⟩
  rcases eventLoop_mem rs rc s hs with rfl | rfl <;> decide

lemma success_trace_sorted (ao : Bool) (ev : List Int) (cr : Int) :
    List.Sorted (fun a b : Nat => a ≤ b)
      ((([Step.init, Step.openDev 0x16c0 0x0763, Step.claimIntf 2]
          ++ benchmark_in_steps EP_ISO_IN ao
          ++ (eventLoop ev cr).1
          ++ [Step.releaseIntf 2, Step.closeDev, Step.exitLib]).map stepRank)) := by
  have hp3S : List.Sorted (fun a b : Nat => a ≤ b)
      ([Step.init, Step.openDev 0x16c0 0x0763, Step.claimIntf 2].map stepRank) := by
    decide
  have hp3B : ∀ x ∈ [Step.init, Step.openDev 0x16c0 0x0763,
      Step.claimIntf 2].map stepRank, x ≤ 2 := by decide
  have hbS : List.Sorted (fun a b : Nat => a ≤ b)
      ((benchmark_in_steps EP_ISO_IN ao).map stepRank) := by
    cases ao <;> decide
  have hbB : ∀ x ∈ (benchmark_in_steps EP_ISO_IN ao).map stepRank,
      3 ≤ x ∧ x ≤ 5 := by
    cases ao <;> decide
  have hloopS := eventLoop_ranks_sorted ev cr
  have hloopB := eventLoop_ranks_bounds ev cr
  have htS : List.Sorted (fun a b : Nat => a ≤ b)
      ([Step.releaseIntf 2, Step.closeDev, Step.exitLib].map stepRank) := by decide
  have htB : ∀ y ∈ [Step.releaseIntf 2, Step.closeDev,
      Step.exitLib].map stepRank, 8 ≤ y := by decide
  simp only [List.map_append, List.append_assoc]
  refine sorted_le_append hp3S
    (sorted_le_append hbS (sorted_le_append hloopS htS ?_) ?_) ?_
  · intro x hx y hy
    have h7 := (hloopB x hx).2
    have h8 := htB y hy
    omega
  · intro x hx y hy
    have hx5 := (hbB x hx).2
    rcases List.mem_append.1 hy with hy | hy
    · have := (hloopB y hy).1
      omega
    · have := htB y hy
      omega
  · intro x hx y hy
    have hx2 := hp3B x hx
    rcases List.mem_append.1 hy with hy | hy
    · have := (hbB y hy).1
      omega
    · rcases List.mem_append.1 hy with hy | hy
      · have := (hloopB y hy).1
        omega
      · have := htB y hy
        omega

lemma mainTrace_init_fail (env : Env) (h : env.initResult < 0) :
    mainTrace env = ([Step.init], 1) := by
  simp [mainTrace, h]

lemma mainTrace_open_fail (env : Env) (h1 : ¬ env.initResult < 0)
    (h2 : env.openOk = false) :
    mainTrace env
      = ([Step.init, Step.openDev 0x16c0 0x0763, Step.exitLib],
         env.initResult) := by
  simp [mainTrace, h1, h2]

lemma mainTrace_claim_fail (env : Env) (h1 : ¬ env.initResult < 0)
    (h2 : env.openOk = true) (h3 : env.claimResult < 0) :
    mainTrace env
      = ([Step.init, Step.openDev 0x16c0 0x0763, Step.claimIntf 2,
          Step.closeDev, Step.exitLib], env.claimResult) := by
  simp [mainTrace, h1, h2, h3]

lemma mainTrace_success (env : Env) (h1 : ¬ env.initResult < 0)
    (h2 : env.openOk = true) (h3 : ¬ env.claimResult < 0) :
    mainTrace env
      = ([Step.init, Step.openDev 0x16c0 0x0763, Step.claimIntf 2]
          ++ benchmark_in_steps EP_ISO_IN env.allocOk
          ++ (eventLoop env.events env.claimResult).1
          ++ [Step.releaseIntf 2, Step.closeDev, Step.exitLib],
         (eventLoop env.events env.claimResult).2) := by
  simp [mainTrace, h1, h2, h3]

lemma bench_mem (ao : Bool) :
    ∀ s ∈ benchmark_in_steps EP_ISO_IN ao,
      s = Step.allocTransfer 16
      ∨ s = Step.fillTransfer (benchmark_in_setup EP_ISO_IN)
      ∨ s = Step.submitTransfer := by
  cases ao <;> decide

lemma cb_xfr_ok (xfr : Transfer) (c : Counters) (sr : Int)
    (hst : xfr.status = TransferStatus.completed)
    (hiso : xfr.xferType = TransferType.isochronous →
      ∀ p ∈ xfr.iso_packet_desc, p.status = TransferStatus.completed) :
    cb_xfr xfr c sr
      = (if sr < 0 then CbResult.exited 1 else CbResult.resubmitted xfr,
         ⟨c.num_bytes + xfr.actual_length, c.num_xfer + 1⟩) := by
  unfold cb_xfr
  rw [if_neg (by simp [hst])]
  by_cases hty : xfr.xferType = TransferType.isochronous
  · rw [if_pos hty, iso_packet_loop_ok _ (hiso hty)]
    by_cases hsr : sr < 0 <;> simp [hsr]
  · rw [if_neg hty]
    by_cases hsr : sr < 0 <;> simp [hsr]

lemma cb_run_good : ∀ (c : Counters) (l : List (Transfer × Int)),
    (∀ q ∈ l, q.1.status = TransferStatus.completed
      ∧ (q.1.xferType = TransferType.isochronous →
          ∀ p ∈ q.1.iso_packet_desc, p.status = TransferStatus.completed)
      ∧ ¬ q.2 < 0) →
    cb_run c l
      = (⟨c.num_bytes + (l.map fun q => q.1.actual_length).sum,
          c.num_xfer + l.length⟩, none)
  | c, [], _ => by simp [cb_run]
  | c, (x, sr) :: rest, h => by
    obtain ⟨h1, h2, h3⟩ := h (x, sr) (by simp)
    have hx := cb_xfr_ok x c sr h1 h2
    have ih := cb_run_good ⟨c.num_bytes + x.actual_length, c.num_xfer + 1⟩ rest
      (fun q hq => h q (by simp [hq]))
    simp only [cb_run, hx, if_neg h3, ih, List.map_cons, List.sum_cons,
      List.length_cons, Prod.mk.injEq, Counters.mk.injEq]
    refine ⟨⟨by omega, by omega⟩, trivial⟩

lemma cb_xfr_resubmitted_counters (xfr : Transfer) (c : Counters) (sr : Int)
    (h : (cb_xfr xfr c sr).1 = CbResult.resubmitted xfr) :
    (cb_xfr xfr c sr).2
      = ⟨c.num_bytes + xfr.actual_length, c.num_xfer + 1⟩ := by
  unfold cb_xfr at h ⊢
  by_cases h1 : xfr.status ≠ TransferStatus.completed
  · simp [h1] at h
  · rw [if_neg h1] at h ⊢
    cases he : (if xfr.xferType = TransferType.isochronous
        then iso_packet_loop xfr.iso_packet_desc else Except.ok []) with
    | error e =>
      rw [he] at h
      simp at h
    | ok printed =>
      rw [he] at h
      by_cases hsr : sr < 0
      · simp [hsr] at h
      · simp [hsr]

lemma mainTrace_steps (env : Env) :
    ∀ s ∈ (mainTrace env).1,
      s = Step.init ∨ s = Step.openDev 0x16c0 0x0763 ∨ s = Step.claimIntf 2
      ∨ s = Step.allocTransfer 16
      ∨ s = Step.fillTransfer (benchmark_in_setup EP_ISO_IN)
      ∨ s = Step.submitTransfer ∨ s = Step.handleEvents ∨ s = Step.doMeasure
      ∨ s = Step.releaseIntf 2 ∨ s = Step.closeDev ∨ s = Step.exitLib := by
  intro s hs
  by_cases h1 : env.initResult < 0
  · rw [mainTrace_init_fail env h1] at hs
    simp at hs
    simp [hs]
  · by_cases h2 : env.openOk = true
    · by_cases h3 : env.claimResult < 0
      · rw [mainTrace_claim_fail env h1 h2 h3] at hs
        simp at hs
        rcases hs with rfl | rfl | rfl | rfl | rfl <;> simp
      · rw [mainTrace_success env h1 h2 h3] at hs
        simp only [List.append_assoc, List.mem_append, List.mem_cons,
          List.not_mem_nil, or_false] at hs
        rcases hs with (rfl | rfl | rfl) | hs | hs | hs
        · simp
        · simp
        · simp
        · have := bench_mem env.allocOk s hs
          tauto
        · have := eventLoop_mem env.events env.claimResult s hs
          tauto
        · rcases hs with rfl | rfl | rfl <;> simp
    · rw [mainTrace_open_fail env h1 (by simpa using h2)] at hs
      simp at hs
      rcases hs with rfl | rfl | rfl <;> simp

lemma mainTrace_counts (env : Env) :
    (mainTrace env).1.count Step.init ≤ 1
    ∧ (mainTrace env).1.count (Step.openDev 0x16c0 0x0763) ≤ 1
    ∧ (mainTrace env).1.count (Step.claimIntf 2) ≤ 1
    ∧ (mainTrace env).1.count Step.submitTransfer ≤ 1 := by
  by_cases h1 : env.initResult < 0
  · rw [mainTrace_init_fail env h1]
    decide
  · by_cases h2 : env.openOk = true
    · by_cases h3 : env.claimResult < 0
      · rw [mainTrace_claim_fail env h1 h2 h3]
        dsimp only
        decide
      · rw [mainTrace_success env h1 h2 h3]
        have l1 := eventLoop_count env.events env.claimResult Step.init
          (by simp) (by simp)
        have l2 := eventLoop_count env.events env.claimResult
          (Step.openDev 0x16c0 0x0763) (by simp) (by simp)
        have l3 := eventLoop_count env.events env.claimResult
          (Step.claimIntf 2) (by simp) (by simp)
        have l4 := eventLoop_count env.events env.claimResult
          Step.submitTransfer (by simp) (by simp)
        simp only [List.append_assoc, List.count_append, l1, l2, l3, l4]
        cases env.allocOk <;> decide
    · rw [mainTrace_open_fail env h1 (by simpa using h2)]
      dsimp only
      decide

/-! Claim theorems. -/

/-- C1: evaluation of the code at a failing input.  The claim says
`measure()` computes `diff_msec` equal to the true elapsed milliseconds, in
particular when `tv_stop.tv_usec < tv_start.tv_usec` and a second must be
borrowed.  The code instead adds `NSEC_PER_SEC` (10^9) to a difference of
*microsecond* fields when borrowing, so for start = 0.5 s and stop = 1.0 s
it reports 999500 ms where the true elapsed time is 500 ms. -/
theorem C1_measure_diff_msec_bug :
    measure_diff_msec ⟨0, 500000⟩ ⟨1, 0⟩ = 999500
    ∧ trueElapsedMsec ⟨0, 500000⟩ ⟨1, 0⟩ = 500
    ∧ measure_diff_msec ⟨0, 500000⟩ ⟨1, 0⟩
        ≠ trueElapsedMsec ⟨0, 500000⟩ ⟨1, 0⟩ := by
  refine ⟨by decide, by decide, by decide⟩

/-- C2: whenever the callback runs on a transfer whose status is
COMPLETED and (for an isochronous transfer) all of whose packets are
COMPLETED, it re-submits the very transfer it received; a failed
re-submission terminates the process (exit code 1); and a whole stream of
such completions is processed with every invocation re-submitting, i.e.
the cycle repeats until the input stream is interrupted. -/
theorem C2_callback_resubmits :
    (∀ (xfr : Transfer) (c : Counters) (sr : Int),
        xfr.status = TransferStatus.completed →
        (xfr.xferType = TransferType.isochronous →
          ∀ p ∈ xfr.iso_packet_desc, p.status = TransferStatus.completed) →
        ¬ sr < 0 →
        (cb_xfr xfr c sr).1 = CbResult.resubmitted xfr)
    ∧ (∀ (xfr : Transfer) (c : Counters) (sr : Int),
        xfr.status = TransferStatus.completed →
        (xfr.xferType = TransferType.isochronous →
          ∀ p ∈ xfr.iso_packet_desc, p.status = TransferStatus.completed) →
        sr < 0 →
        (cb_xfr xfr c sr).1 = CbResult.exited 1)
    ∧ (∀ (c : Counters) (l : List (Transfer × Int)),
        (∀ q ∈ l, q.1.status = TransferStatus.completed
          ∧ (q.1.xferType = TransferType.isochronous →
              ∀ p ∈ q.1.iso_packet_desc,
                p.status = TransferStatus.completed)
          ∧ ¬ q.2 < 0) →
        (cb_run c l).2 = none) := by
  refine ⟨?_, ?_, ?_⟩
  · intro xfr c sr h1 h2 h3
    rw [cb_xfr_ok xfr c sr h1 h2]
    simp [h3]
  · intro xfr c sr h1 h2 h3
    rw [cb_xfr_ok xfr c sr h1 h2]
    simp [h3]
  · intro c l h
    rw [cb_run_good c l h]

/-- Witness for C2 at a concrete input. -/
theorem C2_callback_resubmits_witness :
    (cb_xfr ⟨TransferType.bulk, TransferStatus.completed, 2048, 512, []⟩
        ⟨0, 0⟩ 0).1
      = CbResult.resubmitted
          ⟨TransferType.bulk, TransferStatus.completed, 2048, 512, []⟩ :=
  C2_callback_resubmits.1
    ⟨TransferType.bulk, TransferStatus.completed, 2048, 512, []⟩ ⟨0, 0⟩ 0
    (by decide) (by decide) (by decide)

/-- C6: for an isochronous completed transfer the callback checks each of
the `num_iso_packets` packet descriptors: if any packet's status is not
COMPLETED the process exits with code 5, and otherwise the pairs
`(length, actual_length)` of every packet, in order, are printed (the
result of `iso_packet_loop` is exactly the list of printed pairs). -/
theorem C6_iso_packet_check :
    (∀ (xfr : Transfer) (c : Counters) (sr : Int),
        xfr.status = TransferStatus.completed →
        xfr.xferType = TransferType.isochronous →
        (∃ p ∈ xfr.iso_packet_desc, p.status ≠ TransferStatus.completed) →
        (cb_xfr xfr c sr).1 = CbResult.exited 5)
    ∧ (∀ ps : List IsoPacketDesc,
        (∀ p ∈ ps, p.status = TransferStatus.completed) →
        iso_packet_loop ps
          = Except.ok (ps.map fun p => (p.length, p.actual_length)))
    ∧ (∀ ps : List IsoPacketDesc,
        iso_packet_loop ps = Except.error 5
          ↔ ∃ p ∈ ps, p.status ≠ TransferStatus.completed) := by
  refine ⟨?_, iso_packet_loop_ok, iso_packet_loop_error_iff⟩
  intro xfr c sr h1 h2 h3
  unfold cb_xfr
  rw [if_neg (by simp [h1]), if_pos h2, iso_packet_loop_error _ h3]

/-- Witness for C6 at a concrete input. -/
theorem C6_iso_packet_check_witness :
    (cb_xfr ⟨TransferType.isochronous, TransferStatus.completed, 2048, 0,
        [⟨128, 0, TransferStatus.error⟩]⟩ ⟨0, 0⟩ 0).1
      = CbResult.exited 5 :=
  C6_iso_packet_check.1
    ⟨TransferType.isochronous, TransferStatus.completed, 2048, 0,
      [⟨128, 0, TransferStatus.error⟩]⟩ ⟨0, 0⟩ 0
    (by decide) (by decide)
    ⟨⟨128, 0, TransferStatus.error⟩, by decide, by decide⟩

/-- C10: an invocation of the callback that returns normally (re-submits)
increases `num_bytes` by exactly the transfer's `actual_length` and
`num_xfer` by exactly 1; consequently, over any stream in which every
invocation returns normally, the final `num_bytes` is the initial value
plus the sum of the `actual_length` values and `num_xfer` the initial
value plus their count. -/
theorem C10_counters :
    (∀ (xfr : Transfer) (c : Counters) (sr : Int),
        (cb_xfr xfr c sr).1 = CbResult.resubmitted xfr →
        (cb_xfr xfr c sr).2
          = ⟨c.num_bytes + xfr.actual_length, c.num_xfer + 1⟩)
    ∧ (∀ (c : Counters) (l : List (Transfer × Int)),
        (∀ q ∈ l, q.1.status = TransferStatus.completed
          ∧ (q.1.xferType = TransferType.isochronous →
              ∀ p ∈ q.1.iso_packet_desc,
                p.status = TransferStatus.completed)
          ∧ ¬ q.2 < 0) →
        cb_run c l
          = (⟨c.num_bytes + (l.map fun q => q.1.actual_length).sum,
              c.num_xfer + l.length⟩, none)) :=
  ⟨cb_xfr_resubmitted_counters, cb_run_good⟩

/-- Witness for C10 at a concrete input. -/
theorem C10_counters_witness :
    cb_run ⟨0, 0⟩
        [(⟨TransferType.bulk, TransferStatus.completed, 2048, 100, []⟩, 0),
         (⟨TransferType.bulk, TransferStatus.completed, 2048, 28, []⟩, 0)]
      = (⟨128, 2⟩, none) := by
  have h := C10_counters.2 ⟨0, 0⟩
    [(⟨TransferType.bulk, TransferStatus.completed, 2048, 100, []⟩, 0),
     (⟨TransferType.bulk, TransferStatus.completed, 2048, 28, []⟩, 0)]
    (by decide)
  simpa using h

/-- C3: in every run, any device open is of vendor 0x16c0 / product 0x0763
on the default context and happens at most once (exactly once when init
succeeded); any interface claim is of interface 2 and happens at most once;
the claim happens exactly when init succeeded and the open returned a
handle; and when it happens the trace starts `init, open, claim`, so the
claim precedes every transfer allocation or submission. -/
theorem C3_open_then_claim :
    ∀ env : Env,
      (∀ v p, Step.openDev v p ∈ (mainTrace env).1
        → v = 0x16c0 ∧ p = 0x0763)
      ∧ (mainTrace env).1.count (Step.openDev 0x16c0 0x0763) ≤ 1
      ∧ (∀ i, Step.claimIntf i ∈ (mainTrace env).1 → i = 2)
      ∧ (mainTrace env).1.count (Step.claimIntf 2) ≤ 1
      ∧ (Step.claimIntf 2 ∈ (mainTrace env).1
          ↔ (¬ env.initResult < 0 ∧ env.openOk = true))
      ∧ (Step.claimIntf 2 ∈ (mainTrace env).1 →
          ∃ rest, (mainTrace env).1
            = Step.init :: Step.openDev 0x16c0 0x0763
                :: Step.claimIntf 2 :: rest) := by
  intro env
  refine ⟨?_, (mainTrace_counts env).2.1, ?_, (mainTrace_counts env).2.2.1,
    ?_, ?_⟩
  · intro v p hmem
    have h := mainTrace_steps env _ hmem
    simp only [Step.openDev.injEq] at h
    rcases h with h | h | h | h | h | h | h | h | h | h | h <;> simp_all
  · intro i hmem
    have h := mainTrace_steps env _ hmem
    simp only [Step.claimIntf.injEq] at h
    rcases h with h | h | h | h | h | h | h | h | h | h | h <;> simp_all
  · by_cases h1 : env.initResult < 0
    · rw [mainTrace_init_fail env h1]
      simp [h1]
    · by_cases h2 : env.openOk = true
      · by_cases h3 : env.claimResult < 0
        · rw [mainTrace_claim_fail env h1 h2 h3]
          simp [h1, h2]
        · rw [mainTrace_success env h1 h2 h3]
          simp [h1, h2]
      · rw [mainTrace_open_fail env h1 (by simpa using h2)]
        simp [h1]
        simpa using h2
  · intro hmem
    by_cases h1 : env.initResult < 0
    · rw [mainTrace_init_fail env h1] at hmem
      simp at hmem
    · by_cases h2 : env.openOk = true
      · by_cases h3 : env.claimResult < 0
        · exact ⟨[Step.closeDev, Step.exitLib],
            by rw [mainTrace_claim_fail env h1 h2 h3]⟩
        · exact ⟨benchmark_in_steps EP_ISO_IN env.allocOk
              ++ (eventLoop env.events env.claimResult).1
              ++ [Step.releaseIntf 2, Step.closeDev, Step.exitLib],
            by rw [mainTrace_success env h1 h2 h3]; simp⟩
      · rw [mainTrace_open_fail env h1 (by simpa using h2)] at hmem
        simp at hmem

/-- Witness for C3 at a concrete input. -/
theorem C3_open_then_claim_witness :
    Step.claimIntf 2 ∈ (mainTrace ⟨0, true, 0, true, []⟩).1
    ∧ ∃ rest, (mainTrace ⟨0, true, 0, true, []⟩).1
        = Step.init :: Step.openDev 0x16c0 0x0763
            :: Step.claimIntf 2 :: rest := by
  have hm : Step.claimIntf 2 ∈ (mainTrace ⟨0, true, 0, true, []⟩).1 := by
    decide
  exact ⟨hm, (C3_open_then_claim ⟨0, true, 0, true, []⟩).2.2.2.2.2 hm⟩

/-- C4: in every run the ranks of the performed steps along the nine-step
order (init, open, claim, allocate, fill, submit, event loop, measure,
teardown) are monotonically non-decreasing, i.e. no later step ever occurs
before an earlier one; and in a run where every library call succeeds and
SIGINT arrives after `k` event-handling calls, the trace is exactly the
nine-step sequence. -/
theorem C4_nine_step_order :
    (∀ env : Env,
        List.Sorted (fun a b : Nat => a ≤ b)
          (((mainTrace env).1).map stepRank))
    ∧ (∀ k : Nat,
        mainTrace ⟨0, true, 0, true, List.replicate k 0⟩
          = ([Step.init, Step.openDev 0x16c0 0x0763, Step.claimIntf 2,
              Step.allocTransfer 16,
              Step.fillTransfer (benchmark_in_setup EP_ISO_IN),
              Step.submitTransfer]
              ++ List.replicate k Step.handleEvents
              ++ [Step.doMeasure, Step.releaseIntf 2, Step.closeDev,
                  Step.exitLib], 0)) := by
  constructor
  · intro env
    by_cases h1 : env.initResult < 0
    · rw [mainTrace_init_fail env h1]
      decide
    · by_cases h2 : env.openOk = true
      · by_cases h3 : env.claimResult < 0
        · rw [mainTrace_claim_fail env h1 h2 h3]
          dsimp only
          decide
        · rw [mainTrace_success env h1 h2 h3]
          exact success_trace_sorted env.allocOk env.events env.claimResult
      · rw [mainTrace_open_fail env h1 (by simpa using h2)]
        dsimp only
        decide
  · intro k
    have hs := mainTrace_success ⟨0, true, 0, true, List.replicate k 0⟩
      (by simp) rfl (by simp)
    rw [hs]
    simp [eventLoop_replicate_zero, benchmark_in_steps, EP_ISO_IN]

/-- C5: every failure the program detects leads only to an error message
followed by termination or fall-through to teardown, with no retry:
init failure exits with code 1 after the single init call; open failure
falls through to `libusb_exit`; claim failure falls through to close and
exit; a transfer completing with a bad status exits with code 3; a bad
isochronous packet exits with code 5; a failed re-submission exits with
code 1; and no run ever performs init, open, claim or submit more than
once. -/
theorem C5_no_retry :
    (∀ env : Env, env.initResult < 0 → mainTrace env = ([Step.init], 1))
    ∧ (∀ env : Env, ¬ env.initResult < 0 → env.openOk = false →
        mainTrace env
          = ([Step.init, Step.openDev 0x16c0 0x0763, Step.exitLib],
             env.initResult))
    ∧ (∀ env : Env, ¬ env.initResult < 0 → env.openOk = true →
        env.claimResult < 0 →
        mainTrace env
          = ([Step.init, Step.openDev 0x16c0 0x0763, Step.claimIntf 2,
              Step.closeDev, Step.exitLib], env.claimResult))
    ∧ (∀ (xfr : Transfer) (c : Counters) (sr : Int),
        xfr.status ≠ TransferStatus.completed →
        (cb_xfr xfr c sr).1 = CbResult.exited 3)
    ∧ (∀ (xfr : Transfer) (c : Counters) (sr : Int),
        xfr.status = TransferStatus.completed →
        xfr.xferType = TransferType.isochronous →
        (∃ p ∈ xfr.iso_packet_desc, p.status ≠ TransferStatus.completed) →
        (cb_xfr xfr c sr).1 = CbResult.exited 5)
    ∧ (∀ (xfr : Transfer) (c : Counters) (sr : Int),
        xfr.status = TransferStatus.completed →
        (xfr.xferType = TransferType.isochronous →
          ∀ p ∈ xfr.iso_packet_desc, p.status = TransferStatus.completed) →
        sr < 0 → (cb_xfr xfr c sr).1 = CbResult.exited 1)
    ∧ (∀ env : Env,
        (mainTrace env).1.count Step.init ≤ 1
        ∧ (mainTrace env).1.count (Step.openDev 0x16c0 0x0763) ≤ 1
        ∧ (mainTrace env).1.count (Step.claimIntf 2) ≤ 1
        ∧ (mainTrace env).1.count Step.submitTransfer ≤ 1) := by
  refine ⟨mainTrace_init_fail, mainTrace_open_fail, mainTrace_claim_fail,
    ?_, ?_, ?_, mainTrace_counts⟩
  · intro xfr c sr h
    unfold cb_xfr
    rw [if_pos h]
  · intro xfr c sr h1 h2 h3
    unfold cb_xfr
    rw [if_neg (by simp [h1]), if_pos h2, iso_packet_loop_error _ h3]
  · intro xfr c sr h1 h2 h3
    rw [cb_xfr_ok xfr c sr h1 h2]
    simp [h3]

/-- Witness for C5 at a concrete input. -/
theorem C5_no_retry_witness :
    mainTrace ⟨-1, true, 0, true, []⟩ = ([Step.init], 1) :=
  C5_no_retry.1 ⟨-1, true, 0, true, []⟩ (by decide)

/-- C7: after the transfer is submitted, `main` loops invoking only the
event-handling call; when every call returns `LIBUSB_SUCCESS` (0) the loop
runs until the SIGINT-set `do_exit` flag stops it (one `handleEvents` per
result, then the handler's `measure`); a non-zero result breaks the loop
immediately after that call; the loop body performs no step other than
event handling (plus the signal handler's measure); and in a successful
run the whole trace is the fixed prefix, the loop steps, and teardown. -/
theorem C7_event_loop :
    (∀ (zs : List Int) (rc : Int), (∀ r ∈ zs, r = 0) →
        (eventLoop zs rc).1
          = List.replicate zs.length Step.handleEvents ++ [Step.doMeasure])
    ∧ (∀ (zs : List Int) (r : Int) (rs : List Int) (rc : Int),
        (∀ z ∈ zs, z = 0) → r ≠ 0 →
        eventLoop (zs ++ r :: rs) rc
          = (List.replicate (zs.length + 1) Step.handleEvents, r))
    ∧ (∀ (rs : List Int) (rc : Int), ∀ s ∈ (eventLoop rs rc).1,
        s = Step.handleEvents ∨ s = Step.doMeasure)
    ∧ (∀ env : Env, ¬ env.initResult < 0 → env.openOk = true →
        ¬ env.claimResult < 0 →
        mainTrace env
          = ([Step.init, Step.openDev 0x16c0 0x0763, Step.claimIntf 2]
              ++ benchmark_in_steps EP_ISO_IN env.allocOk
              ++ (eventLoop env.events env.claimResult).1
              ++ [Step.releaseIntf 2, Step.closeDev, Step.exitLib],
             (eventLoop env.events env.claimResult).2)) :=
  ⟨eventLoop_all_zero, eventLoop_break, eventLoop_mem, mainTrace_success⟩

/-- Witness for C7 at a concrete input. -/
theorem C7_event_loop_witness :
    eventLoop [0, 1] 0 = (List.replicate 2 Step.handleEvents, 1) :=
  C7_event_loop.2.1 [0] 1 [] 0 (by decide) (by decide)

/-- C8: `benchmark_in EP_ISO_IN` allocates one transfer with 16 iso
packets and fills it as an isochronous transfer over the 2048-byte buffer
with 16 packets of 128 bytes each (2048/16); for any other endpoint the
same buffer is filled as a bulk transfer; and in a run reaching the event
loop with a successful allocation the trace contains exactly one transfer
submission, occurring before the event loop. -/
theorem C8_one_submission :
    benchmark_in_setup EP_ISO_IN
      = ⟨EP_ISO_IN, TransferType.isochronous, 2048, 16, 128⟩
    ∧ (∀ ep, ep ≠ EP_ISO_IN →
        benchmark_in_setup ep = ⟨ep, TransferType.bulk, 2048, 0, 0⟩)
    ∧ (∀ env : Env, ¬ env.initResult < 0 → env.openOk = true →
        ¬ env.claimResult < 0 → env.allocOk = true →
        (mainTrace env).1
          = [Step.init, Step.openDev 0x16c0 0x0763, Step.claimIntf 2,
             Step.allocTransfer 16,
             Step.fillTransfer (benchmark_in_setup EP_ISO_IN),
             Step.submitTransfer]
            ++ (eventLoop env.events env.claimResult).1
            ++ [Step.releaseIntf 2, Step.closeDev, Step.exitLib]
          ∧ (mainTrace env).1.count Step.submitTransfer = 1) := by
  refine ⟨by decide, ?_, ?_⟩
  · intro ep h
    simp [benchmark_in_setup, h]
  · intro env h1 h2 h3 h4
    have hs := mainTrace_success env h1 h2 h3
    have hl := eventLoop_count env.events env.claimResult
      Step.submitTransfer (by simp) (by simp)
    constructor
    · rw [hs]
      simp [benchmark_in_steps, h4, EP_ISO_IN]
    · rw [hs]
      simp [List.count_append, hl, benchmark_in_steps, h4, EP_ISO_IN]

/-- Witness for C8 at a concrete input. -/
theorem C8_one_submission_witness :
    benchmark_in_setup 0x82 = ⟨0x82, TransferType.bulk, 2048, 0, 0⟩ :=
  C8_one_submission.2.1 0x82 (by decide)

/-- C9: when init succeeded but the open returns NULL, `main` skips the
interface claim and the benchmark entirely, still calls `libusb_exit`, and
returns the `rc` left from init; since a successful
`libusb_init_context` returns 0, the process exit status is 0 even though
no device was found. -/
theorem C9_open_fail_returns_init_rc :
    ∀ env : Env, ¬ env.initResult < 0 → env.openOk = false →
      mainTrace env
        = ([Step.init, Step.openDev 0x16c0 0x0763, Step.exitLib],
           env.initResult)
      ∧ Step.claimIntf 2 ∉ (mainTrace env).1
      ∧ Step.allocTransfer 16 ∉ (mainTrace env).1
      ∧ Step.submitTransfer ∉ (mainTrace env).1
      ∧ Step.exitLib ∈ (mainTrace env).1
      ∧ (env.initResult = 0 → (mainTrace env).2 = 0) := by
  intro env h1 h2
  have h := mainTrace_open_fail env h1 h2
  rw [h]
  refine ⟨rfl, by simp, by simp, by simp, by simp, fun h0 => h0⟩

/-- Witness for C9 at a concrete input. -/
theorem C9_open_fail_returns_init_rc_witness :
    mainTrace ⟨0, false, 0, true, []⟩
      = ([Step.init, Step.openDev 0x16c0 0x0763, Step.exitLib], 0)
    ∧ (mainTrace ⟨0, false, 0, true, []⟩).2 = 0 :=
  ⟨(C9_open_fail_returns_init_rc ⟨0, false, 0, true, []⟩
      (by decide) rfl).1,
   (C9_open_fail_returns_init_rc ⟨0, false, 0, true, []⟩
      (by decide) rfl).2.2.2.2.2 rfl⟩

end Sam3u
